import Mathlib

/-!
Shallow embedding of the domain logic of the jewelry-casting workshop tracker
(the `pages/*.py` UI sources).  Weights and temperatures are embedded as
exact rationals (`ℚ`); Python's `round(x, 3)` is embedded as rounding to the
nearest thousandth (no statement below exercises a tie, where Python's
half-to-even convention on floats would differ from `round`).  String
handling mirrors Python: `.upper()`/`.lower()` map case per character,
`x in s` is contiguous-substring membership, `s.startswith(p)` is a prefix
test and `s.strip()` trims surrounding whitespace.
-/

/-- Python's `needle in hay` on strings: contiguous substring membership. -/
def hasSub (needle : List Char) : List Char → Bool
  | [] => needle.isEmpty
  | c :: t => needle.isPrefixOf (c :: t) || hasSub needle t

/-- Python's `s.upper()` as a list of characters. -/
def upperChars (s : String) : List Char := s.data.map Char.toUpper

/-- Python's `s.lower()` on a list of characters. -/
def lowerChars (l : List Char) : List Char := l.map Char.toLower

/-- Python's `s.strip()` on a list of characters. -/
def stripChars (l : List Char) : List Char :=
  ((l.dropWhile Char.isWhitespace).reverse.dropWhile Char.isWhitespace).reverse

/-- Python's `round(x, 3)`: round to the nearest thousandth. -/
def round3 (x : ℚ) : ℚ := (round (x * 1000) : ℤ) / 1000

/-- The composition rule attached to a metal name; mirrors the
`{"type": "none"} / {"type": "pure_only"} / {"type": "gold_pct", "pct": p}`
dictionaries of `pages/supply.py` and `pages/metal_prep.py`. -/
inductive MetalRule where
  | none : MetalRule
  | pure_only : MetalRule
  | gold_pct (pct : ℚ) : MetalRule
deriving DecidableEq

namespace Casting

/-- `casting_temp_for` from `pages/casting.py`: casting target temperature
(°F) keyed by uppercased-substring match on the metal name. -/
def casting_temp_for (metal_name : String) : ℚ :=
  let n := upperChars metal_name
  if hasSub "10".data n then 1100
  else if hasSub "14W".data n then 1050
  else if hasSub "14Y".data n then 1030
  else if hasSub "14R".data n then 1100
  else if hasSub "SILVER".data n then 1000
  else if hasSub "18W".data n then 1050
  else if hasSub "18Y".data n then 1060
  else if hasSub "18R".data n then 1100
  else if hasSub "PLATINUM".data n then 1900
  else 1000

/-- `oven_temp_for` from `pages/casting.py`: oven target temperature (°F). -/
def oven_temp_for (metal_name : String) : ℚ :=
  let n := upperChars metal_name
  if hasSub "10".data n then 1100
  else if hasSub "14W".data n then 1050
  else if hasSub "14Y".data n then 1050
  else if hasSub "14R".data n then 1050
  else if hasSub "SILVER".data n then 1020
  else if hasSub "18W".data n then 1050
  else if hasSub "18Y".data n then 1050
  else if hasSub "18R".data n then 1020
  else if hasSub "PLATINUM".data n then 1400
  else 1000

end Casting

namespace Supply

/-- `rule_for_metal` from `pages/supply.py`: an empty name yields the neutral
rule; otherwise the name is stripped and lowercased, matched exactly against
`"platinum"`/`"silver"` for the pure-only rule, then by prefix against
`"10"`/`"14"`/`"18"` for the karat percentages. -/
def rule_for_metal (metal_name : String) : MetalRule :=
  if metal_name = "" then .none
  else
    let m := lowerChars (stripChars metal_name.data)
    if m = "platinum".data ∨ m = "silver".data then .pure_only
    else if "10".data.isPrefixOf m then .gold_pct (417/1000)
    else if "14".data.isPrefixOf m then .gold_pct (587/1000)
    else if "18".data.isPrefixOf m then .gold_pct (752/1000)
    else .none

/-- `split_with_pct` from `pages/supply.py`: `fine = total * pct`,
`alloy = total - fine`, both rounded to 3 decimals. -/
def split_with_pct (total pct : ℚ) : ℚ × ℚ :=
  (round3 (total * pct), round3 (total - total * pct))

/-- The body that `submit` in `pages/supply.py` posts: for a pure-only rule
the pure figure goes into the `fine_24k_supplied` field and
`alloy_supplied` is the literal `0.0`; every other rule posts the fine and
alloy inputs as entered. -/
structure Payload where
  scrap_supplied : ℚ
  fine_24k_supplied : ℚ
  alloy_supplied : ℚ
deriving DecidableEq

/-- The payload `submit` builds from the form inputs, keyed on the rule. -/
def submit_payload (rule : MetalRule) (scrap fine alloy pure : ℚ) : Payload :=
  match rule with
  | .pure_only => ⟨scrap, pure, 0⟩
  | _ => ⟨scrap, fine, alloy⟩

/-- The supply form's editable state: the four number inputs and the three
sticky per-input override flags (`fine_overridden` / `alloy_overridden` /
`pure_overridden` in `pages/supply.py`). -/
structure SupplyForm where
  scrap : ℚ
  fine : ℚ
  alloy : ℚ
  pure : ℚ
  fineOv : Bool
  alloyOv : Bool
  pureOv : Bool
deriving DecidableEq

/-- `auto_fill_from_required` (non-initial call, non-prepared flask) from
`pages/supply.py`: recompute the remainder `max (required - scrap) 0` and
refill the composition inputs, skipping any group with an override flag set.
For a gold rule the fine/alloy pair is refilled only when *neither* flag is
set; for an unmatched metal the gold box is the visible one and is zeroed
under the same guard, the hidden pure input being left alone. -/
def auto_fill (required : ℚ) (rule : MetalRule) (s : SupplyForm) : SupplyForm :=
  let remain := max (required - s.scrap) 0
  match rule with
  | .pure_only =>
      if s.pureOv then s else { s with pure := round3 remain }
  | .gold_pct pct =>
      if s.fineOv || s.alloyOv then s
      else
        let fa := split_with_pct remain pct
        { s with fine := fa.1, alloy := fa.2 }
  | .none =>
      if s.fineOv || s.alloyOv then s else { s with fine := 0, alloy := 0 }

/-- The form events wired in `pages/supply.py`: editing an input (which marks
its override flag), editing scrap (which re-runs the auto-fill), and the
RECALCULATE button (`recompute_defaults`: clear every override, re-derive). -/
inductive Event where
  | setScrap (v : ℚ)
  | setFine (v : ℚ)
  | setAlloy (v : ℚ)
  | setPure (v : ℚ)
  | recalc

/-- One form event, as handled by `on_scrap_change` / `on_fine_change` /
`on_alloy_change` / `on_pure_change` / `recompute_defaults`. -/
def step (required : ℚ) (rule : MetalRule) (s : SupplyForm) : Event → SupplyForm
  | .setScrap v => auto_fill required rule { s with scrap := v }
  | .setFine v => { s with fine := v, fineOv := true }
  | .setAlloy v => { s with alloy := v, alloyOv := true }
  | .setPure v => { s with pure := v, pureOv := true }
  | .recalc =>
      auto_fill required rule { s with fineOv := false, alloyOv := false, pureOv := false }

/-- The form state right after selecting a not-prepared flask: zeroed inputs,
cleared overrides, then the initial auto-fill. -/
def init_form (required : ℚ) (rule : MetalRule) : SupplyForm :=
  auto_fill required rule ⟨0, 0, 0, 0, false, false, false⟩

/-- A whole editing session on one selected flask. -/
def run (required : ℚ) (rule : MetalRule) (events : List Event) : SupplyForm :=
  events.foldl (step required rule) (init_form required rule)

end Supply

namespace MetalPrep

/-- `rule_for_metal` from `pages/metal_prep.py` (the same classification as
the supply page, without the leading empty-name guard). -/
def rule_for_metal (metal_name : String) : MetalRule :=
  let m := lowerChars (stripChars metal_name.data)
  if m = "platinum".data ∨ m = "silver".data then .pure_only
  else if "10".data.isPrefixOf m then .gold_pct (417/1000)
  else if "14".data.isPrefixOf m then .gold_pct (587/1000)
  else if "18".data.isPrefixOf m then .gold_pct (752/1000)
  else .none

/-- `split_with_pct` from `pages/metal_prep.py`. -/
def split_with_pct (total pct : ℚ) : ℚ × ℚ :=
  (round3 (total * pct), round3 (total - total * pct))

end MetalPrep

namespace Trees

/-- The density factor picked inside `est_metal_weight` in `pages/trees.py`
by uppercased-substring match on the metal name. -/
def densityFactor (metal_name : String) : ℚ :=
  let name := upperChars metal_name
  if hasSub "10".data name then 11
  else if hasSub "14".data name then 13.25
  else if hasSub "18".data name then 16.5
  else if hasSub "PLATINUM".data name then 21
  else if hasSub "SILVER".data name then 11
  else 1

/-- `est_metal_weight` from `pages/trees.py`: tree weight times the density
factor, rounded to 3 decimals. -/
def est_metal_weight (tree_weight : ℚ) (metal_name : String) : ℚ :=
  round3 (tree_weight * densityFactor metal_name)

end Trees

namespace PostFlask

/-- The density factor inside `est_metal_weight` in `pages/post_flask.py`. -/
def densityFactor (metal_name : String) : ℚ :=
  let name := upperChars metal_name
  if hasSub "10".data name then 11
  else if hasSub "14".data name then 13.25
  else if hasSub "18".data name then 16.5
  else if hasSub "PLATINUM".data name then 21
  else if hasSub "SILVER".data name then 11
  else 1

/-- `est_metal_weight` from `pages/post_flask.py`. -/
def est_metal_weight (tree_weight : ℚ) (metal_name : String) : ℚ :=
  round3 (tree_weight * densityFactor metal_name)

end PostFlask

/-- Which of the two ±5% mass-balance checks fired, if any. -/
inductive CutCheck where
  | ok : CutCheck
  | beforeVsSupplied : CutCheck
  | castScrapVsBefore : CutCheck
deriving DecidableEq

namespace Cutting

/-- The client-side 5% checks of `submit_cutting` in `pages/cutting.py`
(`A` = before-cut, `B` = after-cut scrap, `C` = after-cut casting):
check 1 fires when `supplied > 0` and `|A - supplied| > 0.05 * supplied`,
check 2 when `A > 0` and `|(B + C) - A| > 0.05 * A`, in that order. -/
def submit_cutting_checks (supplied A B C : ℚ) : CutCheck :=
  if 0 < supplied ∧ 5/100 * supplied < |A - supplied| then .beforeVsSupplied
  else if 0 < A ∧ 5/100 * A < |(B + C) - A| then .castScrapVsBefore
  else .ok

/-- The loss preview of `update_preview_and_draft` in `pages/cutting.py`:
`(part_i, part_ii, total)` = metal loss in casting, metal loss in cutting,
total scrap loss. -/
def update_preview_and_draft (supplied A B C : ℚ) : ℚ × ℚ × ℚ :=
  (supplied - A, A - (B + C), supplied - (B + C))

end Cutting

namespace Recon

/-- `validate_rules` from `pages/reconciliation.py`: the same two 5% rules as
the cutting submission (rule A then rule B), with `tol = 0.05`. -/
def validate_rules (supplied A B C : ℚ) : CutCheck :=
  if 0 < supplied ∧ supplied * (5/100) < |A - supplied| then .beforeVsSupplied
  else if 0 < A ∧ A * (5/100) < |(C + B) - A| then .castScrapVsBefore
  else .ok

/-- The loss preview of `update_preview` in `pages/reconciliation.py`. -/
def update_preview (supplied A B C : ℚ) : ℚ × ℚ × ℚ :=
  (supplied - A, A - (B + C), supplied - (B + C))

end Recon

namespace ScrapAdjust

/-- The previewed balance in `refresh_preview` of `pages/scrap_adjust.py`:
`current + amount` for Add, `current - amount` for Remove. -/
def new_total (current amt : ℚ) (isAdd : Bool) : ℚ :=
  current + (if isAdd then amt else -amt)

/-- Whether `refresh_preview` leaves the POST button enabled: disabled when
the previewed balance would be negative, enabled only for a positive
amount. -/
def post_enabled (current amt : ℚ) (isAdd : Bool) : Bool :=
  if new_total current amt isAdd < 0 then false
  else if 0 < amt then true
  else false

/-- The guard at the top of `do_post`: a non-positive amount is refused. -/
def do_post_gate (amt : ℚ) : Bool :=
  decide (0 < amt)

/-- The adjustment the page can actually post: the POST button must be
enabled and `do_post`'s own guard must pass; the posted new balance is the
previewed one.  `Option.none` means the adjustment is rejected and the
balance is left unchanged. -/
def adjust (current amt : ℚ) (isAdd : Bool) : Option ℚ :=
  if post_enabled current amt isAdd && do_post_gate amt then
    some (new_total current amt isAdd)
  else
    Option.none

/-- Outcome of the backend ledger adjustment. -/
inductive AdjustResult where
  | ok (newBalance : ℚ) : AdjustResult
  | negativeReserveError : AdjustResult
deriving DecidableEq

/-- Modelled from the spec: the backend `ScrapReserveLedger.adjust` operation
(the `POST /scrap/adjust` endpoint is not part of this source set).  Per
§4.3, `adjust` fails with `NegativeReserveError` when the action is remove
and the amount exceeds the current balance, leaving the balance unchanged;
otherwise it returns the new balance. -/
def ledger_adjust (balance amount : ℚ) (isAdd : Bool) : AdjustResult :=
  if isAdd then .ok (balance + amount)
  else if balance < amount then .negativeReserveError
  else .ok (balance - amount)

end ScrapAdjust

/-- The claim's reading of the tolerance gate: when `supplied > 0` the
before-cut weight is within 5% of supplied, and when `A > 0` the sum of
after-cut casting and scrap weights is within 5% of `A`. -/
def tol_ok (supplied A B C : ℚ) : Prop :=
  (0 < supplied → |A - supplied| ≤ 5/100 * supplied)
  ∧ (0 < A → |(C + B) - A| ≤ 5/100 * A)

/-- The claim's reading of the metal classification: case-insensitive
*substring* match, first match winning in the order 10 → 14W/14Y/14R →
SILVER → 18W/18Y/18R → PLATINUM, anything unmatched neutral.  Stated only to
be compared against `Supply.rule_for_metal` / `MetalPrep.rule_for_metal`. -/
def claimedSubstringRule (metal_name : String) : MetalRule :=
  let n := upperChars metal_name
  if hasSub "10".data n then .gold_pct (417/1000)
  else if hasSub "14W".data n || hasSub "14Y".data n || hasSub "14R".data n then
    .gold_pct (587/1000)
  else if hasSub "SILVER".data n then .pure_only
  else if hasSub "18W".data n || hasSub "18Y".data n || hasSub "18R".data n then
    .gold_pct (752/1000)
  else if hasSub "PLATINUM".data n then .pure_only
  else .none

/-- Helper: rounding to the nearest thousandth moves a value by at most
half a thousandth. -/
theorem abs_round3_sub (x : ℚ) : |round3 x - x| ≤ 1/2000 := by
  have h : |x * 1000 - round (x * 1000)| ≤ 1/2 := abs_sub_round (x * 1000)
  rw [abs_sub_comm] at h
  have hx : round3 x - x = ((round (x * 1000) : ℤ) - x * 1000) / 1000 := by
    unfold round3; ring
  rw [hx, abs_div]
  rw [show |(1000 : ℚ)| = 1000 by norm_num]
  calc |((round (x * 1000) : ℤ) : ℚ) - x * 1000| / 1000 ≤ (1/2) / 1000 := by gcongr
    _ = 1/2000 := by norm_num

/-- C1: the spec's temperature table does not match the code: for the metal
name "SILVER" the code's casting temperature is 1000 °F, not the 980 °F the
table prescribes. -/
theorem C1_spec_table_counterexample :
    Casting.casting_temp_for "SILVER" = 1000 ∧ (1000 : ℚ) ≠ 980 := by
  exact ⟨rfl, by norm_num⟩

/-- C1 (amended): the derived casting/oven target temperatures follow the
code's table exactly: 10k → 1100/1100, 14W → 1050/1050, 14Y → 1030/1050,
14R → 1100/1050, Silver → 1000/1020, 18W → 1050/1050, 18Y → 1060/1050,
18R → 1100/1020, Platinum → 1900/1400, unmatched → 1000/1000 (°F). -/
theorem C1_temperature_table :
    Casting.casting_temp_for "10K" = 1100 ∧ Casting.oven_temp_for "10K" = 1100
    ∧ Casting.casting_temp_for "14W" = 1050 ∧ Casting.oven_temp_for "14W" = 1050
    ∧ Casting.casting_temp_for "14Y" = 1030 ∧ Casting.oven_temp_for "14Y" = 1050
    ∧ Casting.casting_temp_for "14R" = 1100 ∧ Casting.oven_temp_for "14R" = 1050
    ∧ Casting.casting_temp_for "SILVER" = 1000 ∧ Casting.oven_temp_for "SILVER" = 1020
    ∧ Casting.casting_temp_for "18W" = 1050 ∧ Casting.oven_temp_for "18W" = 1050
    ∧ Casting.casting_temp_for "18Y" = 1060 ∧ Casting.oven_temp_for "18Y" = 1050
    ∧ Casting.casting_temp_for "18R" = 1100 ∧ Casting.oven_temp_for "18R" = 1020
    ∧ Casting.casting_temp_for "PLATINUM" = 1900 ∧ Casting.oven_temp_for "PLATINUM" = 1400
    ∧ Casting.casting_temp_for "COPPER" = 1000 ∧ Casting.oven_temp_for "COPPER" = 1000 :=
  ⟨rfl, rfl, rfl, rfl, rfl, rfl, rfl, rfl, rfl, rfl,
   rfl, rfl, rfl, rfl, rfl, rfl, rfl, rfl, rfl, rfl⟩

/-- Helper: the cutting submission's checks pass exactly when both tolerance
conditions hold. -/
theorem cutting_checks_ok_iff (s A B C : ℚ) :
    Cutting.submit_cutting_checks s A B C = .ok ↔ tol_ok s A B C := by
  unfold Cutting.submit_cutting_checks tol_ok
  split_ifs with h1 h2
  · refine iff_of_false (by simp) ?_
    rintro ⟨ha, _⟩
    exact absurd (ha h1.1) (not_le.mpr h1.2)
  · refine iff_of_false (by simp) ?_
    rintro ⟨_, hb⟩
    have hb0 := hb h2.1
    rw [show (C + B) - A = (B + C) - A by ring] at hb0
    exact absurd hb0 (not_le.mpr h2.2)
  · push_neg at h1 h2
    refine iff_of_true rfl ⟨h1, ?_⟩
    intro hA
    have := h2 hA
    rw [show (B + C) - A = (C + B) - A by ring] at this
    exact this

/-- Helper: the reconciliation validation passes exactly when both tolerance
conditions hold. -/
theorem validate_rules_ok_iff (s A B C : ℚ) :
    Recon.validate_rules s A B C = .ok ↔ tol_ok s A B C := by
  unfold Recon.validate_rules tol_ok
  rw [show s * (5/100) = 5/100 * s by ring, show A * (5/100) = 5/100 * A by ring]
  split_ifs with h1 h2
  · refine iff_of_false (by simp) ?_
    rintro ⟨ha, _⟩
    exact absurd (ha h1.1) (not_le.mpr h1.2)
  · refine iff_of_false (by simp) ?_
    rintro ⟨_, hb⟩
    exact absurd (hb h2.1) (not_le.mpr h2.2)
  · push_neg at h1 h2
    exact iff_of_true rfl ⟨h1, h2⟩

/-- C2: the cutting submission (and the identical reconciliation validation)
fails exactly when a tolerance check is violated; at the boundary,
`before_cut_A = supplied * 1.05` passes while `supplied * 1.05 + 0.01`
always trips the first check. -/
theorem C2_tolerance_gate (s A B C : ℚ) (hs : 0 < s) :
    (Cutting.submit_cutting_checks s A B C = .ok ↔ tol_ok s A B C)
    ∧ (Recon.validate_rules s A B C = .ok ↔ tol_ok s A B C)
    ∧ (∀ B' C', B' + C' = 21/20 * s →
        Cutting.submit_cutting_checks s (21/20 * s) B' C' = .ok)
    ∧ (∀ B' C',
        Cutting.submit_cutting_checks s (21/20 * s + 1/100) B' C' = .beforeVsSupplied) := by
  refine ⟨cutting_checks_ok_iff s A B C, validate_rules_ok_iff s A B C, ?_, ?_⟩
  · intro B' C' hsum
    unfold Cutting.submit_cutting_checks
    rw [if_neg, if_neg]
    · rintro ⟨hA, habs⟩
      rw [hsum, sub_self, abs_zero] at habs
      exact absurd habs (not_lt.mpr (by positivity))
    · rintro ⟨_, habs⟩
      rw [show 21/20 * s - s = 1/20 * s by ring,
          abs_of_pos (by positivity)] at habs
      exact absurd habs (by norm_num)
  · intro B' C'
    unfold Cutting.submit_cutting_checks
    rw [if_pos]
    refine ⟨hs, ?_⟩
    rw [show 21/20 * s + 1/100 - s = 1/20 * s + 1/100 by ring,
        abs_of_pos (by positivity)]
    nlinarith

/-- C2 witness: with supplied = 100 the boundary values behave as claimed:
before-cut 105 passes, before-cut 105.01 fails the first check. -/
theorem C2_tolerance_gate_witness :
    Cutting.submit_cutting_checks 100 105 105 0 = .ok
    ∧ Cutting.submit_cutting_checks 100 (10501/100) 40 60 = .beforeVsSupplied := by
  have h := C2_tolerance_gate 100 105 40 60 (by norm_num)
  constructor
  · have hb := h.2.2.1 105 0 (by norm_num)
    norm_num at hb
    exact hb
  · have hb := h.2.2.2 40 60
    norm_num at hb
    exact hb

/-- C3: the reconciliation (and cutting) loss preview computes
`loss_in_casting = supplied − before_cut`,
`loss_in_cutting = before_cut − (after_scrap + after_cast)` and
`loss_total = supplied − (after_scrap + after_cast)`; at
supplied = 100, before_cut = 103, after_cast = 60, after_scrap = 40 this is
(−3, 3, 0). -/
theorem C3_loss_formulas (supplied before_cut after_cast after_scrap : ℚ) :
    Recon.update_preview supplied before_cut after_scrap after_cast
      = (supplied - before_cut,
         before_cut - (after_scrap + after_cast),
         supplied - (after_scrap + after_cast))
    ∧ Cutting.update_preview_and_draft supplied before_cut after_scrap after_cast
      = (supplied - before_cut,
         before_cut - (after_scrap + after_cast),
         supplied - (after_scrap + after_cast))
    ∧ Recon.update_preview 100 103 40 60 = (-3, 3, 0)
    ∧ Cutting.update_preview_and_draft 100 103 40 60 = (-3, 3, 0) := by
  refine ⟨rfl, rfl, ?_, ?_⟩ <;>
    · simp only [Recon.update_preview, Cutting.update_preview_and_draft, Prod.mk.injEq]
      norm_num

/-- C10: the three loss components always satisfy
`loss_total = loss_in_casting + loss_in_cutting`, in both the reconciliation
and the cutting previews. -/
theorem C10_loss_identity (s A B C : ℚ) :
    (Recon.update_preview s A B C).2.2
      = (Recon.update_preview s A B C).1 + (Recon.update_preview s A B C).2.1
    ∧ (Cutting.update_preview_and_draft s A B C).2.2
      = (Cutting.update_preview_and_draft s A B C).1
        + (Cutting.update_preview_and_draft s A B C).2.1 := by
  constructor <;>
    · simp only [Recon.update_preview, Cutting.update_preview_and_draft]
      ring

/-- C4: the claimed substring classification does not match the code: for
the metal name "14K" both pages classify by the `"14"` *prefix* and return
the 14k gold rule, while the claimed substring table (which only knows
14W/14Y/14R) would fall through to the neutral rule. -/
theorem C4_substring_counterexample :
    Supply.rule_for_metal "14K" = .gold_pct (587/1000)
    ∧ MetalPrep.rule_for_metal "14K" = .gold_pct (587/1000)
    ∧ claimedSubstringRule "14K" = .none
    ∧ MetalRule.gold_pct (587/1000) ≠ .none :=
  ⟨rfl, rfl, rfl, fun h => MetalRule.noConfusion h⟩

/-- C4 (amended): both copies of `rule_for_metal` agree, and classify the
stripped, lowercased name by *exact* match against "platinum"/"silver"
(pure-only) and then by *prefix* against "10" (41.7%), "14" (58.7%) and
"18" (75.2%), anything else neutral. -/
theorem C4_classification (name : String) :
    Supply.rule_for_metal name = MetalPrep.rule_for_metal name
    ∧ ((lowerChars (stripChars name.data) = "platinum".data
        ∨ lowerChars (stripChars name.data) = "silver".data) →
        MetalPrep.rule_for_metal name = .pure_only)
    ∧ (¬(lowerChars (stripChars name.data) = "platinum".data
        ∨ lowerChars (stripChars name.data) = "silver".data) →
       "10".data.isPrefixOf (lowerChars (stripChars name.data)) = true →
        MetalPrep.rule_for_metal name = .gold_pct (417/1000))
    ∧ (¬(lowerChars (stripChars name.data) = "platinum".data
        ∨ lowerChars (stripChars name.data) = "silver".data) →
       "10".data.isPrefixOf (lowerChars (stripChars name.data)) = false →
       "14".data.isPrefixOf (lowerChars (stripChars name.data)) = true →
        MetalPrep.rule_for_metal name = .gold_pct (587/1000))
    ∧ (¬(lowerChars (stripChars name.data) = "platinum".data
        ∨ lowerChars (stripChars name.data) = "silver".data) →
       "10".data.isPrefixOf (lowerChars (stripChars name.data)) = false →
       "14".data.isPrefixOf (lowerChars (stripChars name.data)) = false →
       "18".data.isPrefixOf (lowerChars (stripChars name.data)) = true →
        MetalPrep.rule_for_metal name = .gold_pct (752/1000))
    ∧ (¬(lowerChars (stripChars name.data) = "platinum".data
        ∨ lowerChars (stripChars name.data) = "silver".data) →
       "10".data.isPrefixOf (lowerChars (stripChars name.data)) = false →
       "14".data.isPrefixOf (lowerChars (stripChars name.data)) = false →
       "18".data.isPrefixOf (lowerChars (stripChars name.data)) = false →
        MetalPrep.rule_for_metal name = .none) := by
  refine ⟨?_, ?_, ?_, ?_, ?_, ?_⟩
  · by_cases h : name = ""
    · subst h; rfl
    · simp only [Supply.rule_for_metal, MetalPrep.rule_for_metal, if_neg h]
  · intro hp
    simp only [MetalPrep.rule_for_metal]
    rw [if_pos hp]
  · intro hp h10
    simp only [MetalPrep.rule_for_metal]
    rw [if_neg hp, if_pos h10]
  · intro hp h10 h14
    simp only [MetalPrep.rule_for_metal]
    rw [if_neg hp, if_neg (by simp [h10]), if_pos h14]
  · intro hp h10 h14 h18
    simp only [MetalPrep.rule_for_metal]
    rw [if_neg hp, if_neg (by simp [h10]), if_neg (by simp [h14]), if_pos h18]
  · intro hp h10 h14 h18
    simp only [MetalPrep.rule_for_metal]
    rw [if_neg hp, if_neg (by simp [h10]), if_neg (by simp [h14]),
        if_neg (by simp [h18])]

/-- C4 witness: the name " Platinum " strips and lowercases to "platinum"
and is classified pure-only. -/
theorem C4_classification_witness :
    MetalPrep.rule_for_metal " Platinum " = .pure_only :=
  (C4_classification " Platinum ").2.1 (Or.inl rfl)

/-- C5: the estimated metal weight is the tree weight times the density
factor picked by uppercased-substring match in priority order 10 → 14 → 18 →
PLATINUM → SILVER → fallback 1, rounded to 3 decimals; a zero tree weight
estimates 0 for every metal, and the trees and post-flask copies agree. -/
theorem C5_weight_estimator (tw : ℚ) (name : String) :
    (hasSub "10".data (upperChars name) = true →
      Trees.est_metal_weight tw name = round3 (tw * 11))
    ∧ (hasSub "10".data (upperChars name) = false →
       hasSub "14".data (upperChars name) = true →
      Trees.est_metal_weight tw name = round3 (tw * 13.25))
    ∧ (hasSub "10".data (upperChars name) = false →
       hasSub "14".data (upperChars name) = false →
       hasSub "18".data (upperChars name) = true →
      Trees.est_metal_weight tw name = round3 (tw * 16.5))
    ∧ (hasSub "10".data (upperChars name) = false →
       hasSub "14".data (upperChars name) = false →
       hasSub "18".data (upperChars name) = false →
       hasSub "PLATINUM".data (upperChars name) = true →
      Trees.est_metal_weight tw name = round3 (tw * 21))
    ∧ (hasSub "10".data (upperChars name) = false →
       hasSub "14".data (upperChars name) = false →
       hasSub "18".data (upperChars name) = false →
       hasSub "PLATINUM".data (upperChars name) = false →
       hasSub "SILVER".data (upperChars name) = true →
      Trees.est_metal_weight tw name = round3 (tw * 11))
    ∧ (hasSub "10".data (upperChars name) = false →
       hasSub "14".data (upperChars name) = false →
       hasSub "18".data (upperChars name) = false →
       hasSub "PLATINUM".data (upperChars name) = false →
       hasSub "SILVER".data (upperChars name) = false →
      Trees.est_metal_weight tw name = round3 (tw * 1))
    ∧ Trees.est_metal_weight 0 name = 0
    ∧ Trees.est_metal_weight tw name = PostFlask.est_metal_weight tw name := by
  refine ⟨?_, ?_, ?_, ?_, ?_, ?_, ?_, rfl⟩
  · intro h10
    simp [Trees.est_metal_weight, Trees.densityFactor, h10]
  · intro h10 h14
    simp [Trees.est_metal_weight, Trees.densityFactor, h10, h14]
  · intro h10 h14 h18
    simp [Trees.est_metal_weight, Trees.densityFactor, h10, h14, h18]
  · intro h10 h14 h18 hp
    simp [Trees.est_metal_weight, Trees.densityFactor, h10, h14, h18, hp]
  · intro h10 h14 h18 hp hs
    simp [Trees.est_metal_weight, Trees.densityFactor, h10, h14, h18, hp, hs]
  · intro h10 h14 h18 hp hs
    simp [Trees.est_metal_weight, Trees.densityFactor, h10, h14, h18, hp, hs]
  · simp [Trees.est_metal_weight, round3]

/-- C5 witness: a tree weight of 2 with metal "14Y" estimates
`round3 (2 × 13.25) = 26.5`. -/
theorem C5_weight_estimator_witness : Trees.est_metal_weight 2 "14Y" = 53/2 := by
  have h := (C5_weight_estimator 2 "14Y").2.1 rfl rfl
  rw [h]
  norm_num [round3, round_eq]

/-- C6: for a metal classified as gold, the composition split returns
`(round3 (total * pct), round3 (total - total * pct))` (both pages agree),
and the two rounded parts re-sum to the total within 1/1000. -/
theorem C6_split_sum (name : String) (total pct : ℚ)
    (h : Supply.rule_for_metal name = .gold_pct pct) :
    Supply.split_with_pct total pct
      = (round3 (total * pct), round3 (total - total * pct))
    ∧ MetalPrep.split_with_pct total pct = Supply.split_with_pct total pct
    ∧ |(Supply.split_with_pct total pct).1 + (Supply.split_with_pct total pct).2 - total|
        ≤ 1/1000 := by
  refine ⟨rfl, rfl, ?_⟩
  have ha := abs_round3_sub (total * pct)
  have hb := abs_round3_sub (total - total * pct)
  have key : (Supply.split_with_pct total pct).1 + (Supply.split_with_pct total pct).2 - total
      = (round3 (total * pct) - total * pct)
        + (round3 (total - total * pct) - (total - total * pct)) := by
    simp only [Supply.split_with_pct]
    ring
  rw [key]
  calc |(round3 (total * pct) - total * pct)
          + (round3 (total - total * pct) - (total - total * pct))|
      ≤ |round3 (total * pct) - total * pct|
        + |round3 (total - total * pct) - (total - total * pct)| := abs_add _ _
    _ ≤ 1/2000 + 1/2000 := add_le_add ha hb
    _ = 1/1000 := by norm_num

/-- C6 witness: for 14Y gold (58.7%) and a total of 10, the split is
(5.87, 4.13) and re-sums to 10 within 1/1000. -/
theorem C6_split_sum_witness :
    |(Supply.split_with_pct 10 (587/1000)).1
      + (Supply.split_with_pct 10 (587/1000)).2 - 10| ≤ 1/1000 :=
  (C6_split_sum "14Y" 10 (587/1000) rfl).2.2

/-- C7: for a pure-only metal the supply submission posts the pure figure in
the fine field with alloy exactly 0, and the metal's rule is never a gold
split rule. -/
theorem C7_pure_only_payload (name : String) (scrap fine alloy pure : ℚ)
    (h : Supply.rule_for_metal name = .pure_only) :
    Supply.submit_payload (Supply.rule_for_metal name) scrap fine alloy pure
      = ⟨scrap, pure, 0⟩
    ∧ (Supply.submit_payload (Supply.rule_for_metal name) scrap fine alloy pure).alloy_supplied
        = 0
    ∧ ∀ pct, Supply.rule_for_metal name ≠ .gold_pct pct := by
  rw [h]
  exact ⟨rfl, rfl, fun pct hc => MetalRule.noConfusion hc⟩

/-- C7 witness: metal "PLATINUM" with scrap 0 and pure 50 posts
scrap 0, fine 50, alloy 0. -/
theorem C7_pure_only_payload_witness :
    Supply.submit_payload (Supply.rule_for_metal "PLATINUM") 0 0 0 50
      = ⟨0, 50, 0⟩ :=
  (C7_pure_only_payload "PLATINUM" 0 0 0 50 rfl).1

/-- C8: a remove adjustment larger than the current balance is never posted
(the balance stays as it is) and the modelled backend ledger raises
`NegativeReserveError` on it; a non-positive amount is never posted; any
adjustment that is posted yields a non-negative balance. -/
theorem C8_reserve_guard (current amt : ℚ) (isAdd : Bool) :
    (current < amt → ScrapAdjust.adjust current amt false = Option.none)
    ∧ (amt ≤ 0 → ScrapAdjust.adjust current amt isAdd = Option.none)
    ∧ (∀ b, ScrapAdjust.adjust current amt isAdd = some b → 0 ≤ b)
    ∧ (current < amt →
        ScrapAdjust.ledger_adjust current amt false = .negativeReserveError) := by
  refine ⟨?_, ?_, ?_, ?_⟩
  · intro h
    have hneg : ScrapAdjust.new_total current amt false < 0 := by
      simp only [ScrapAdjust.new_total, Bool.false_eq_true, if_false]
      linarith
    simp [ScrapAdjust.adjust, ScrapAdjust.post_enabled, hneg]
  · intro h
    have hg : ScrapAdjust.do_post_gate amt = false := by
      simp [ScrapAdjust.do_post_gate, not_lt.mpr h]
    simp [ScrapAdjust.adjust, hg]
  · intro b hb
    unfold ScrapAdjust.adjust at hb
    split_ifs at hb with hcond
    have h1 : ScrapAdjust.post_enabled current amt isAdd = true :=
      (Bool.and_eq_true _ _ |>.mp hcond).1
    unfold ScrapAdjust.post_enabled at h1
    split_ifs at h1 with hlt hpos
    injection hb with hb'
    rw [← hb']
    exact le_of_not_lt hlt
  · intro h
    simp [ScrapAdjust.ledger_adjust, h]

/-- C8 witness: removing 7 from a balance of 5 is not posted and the
modelled ledger raises `NegativeReserveError`. -/
theorem C8_reserve_guard_witness :
    ScrapAdjust.adjust 5 7 false = Option.none
    ∧ ScrapAdjust.ledger_adjust 5 7 false = .negativeReserveError := by
  have h := C8_reserve_guard 5 7 false
  exact ⟨h.1 (by norm_num), h.2.2.2 (by norm_num)⟩

/-- C9: overriding only the fine field also stops auto-recalculation of the
alloy field, so the stickiness is NOT per individual field.  Concretely:
with required = 10 and the 14k rule, overriding fine to 6 and then changing
scrap to 2 leaves alloy at its old value 4.13, while a per-field stickiness
would have re-derived it to `split_with_pct 8 0.587 = 3.304`. -/
theorem C9_per_field_counterexample :
    (Supply.run 10 (.gold_pct (587/1000)) [.setFine 6, .setScrap 2]).alloy = 413/100
    ∧ (Supply.split_with_pct (8 : ℚ) (587/1000)).2 = 413/125
    ∧ (413/100 : ℚ) ≠ 413/125 := by
  refine ⟨?_, ?_, by norm_num⟩
  · simp only [Supply.run, Supply.init_form, Supply.step, Supply.auto_fill,
      Supply.split_with_pct, List.foldl]
    norm_num [round3, round_eq]
  · norm_num [Supply.split_with_pct, round3, round_eq]

/-- C9 (amended): for the gold rule an override on *either* fine or alloy
stops auto-recalculation of *both*; an override on pure stops
auto-recalculation of pure; auto-recalculation (a scrap edit) never clears
an override flag, each field edit sets its own flag, and the explicit
recalculate clears every override and re-derives the fields from the
required weight and current scrap. -/
theorem C9_override_semantics (req pct v : ℚ) (s : Supply.SupplyForm) :
    ((s.fineOv = true ∨ s.alloyOv = true) →
      (Supply.step req (.gold_pct pct) s (.setScrap v)).fine = s.fine
      ∧ (Supply.step req (.gold_pct pct) s (.setScrap v)).alloy = s.alloy)
    ∧ (s.pureOv = true →
        (Supply.step req .pure_only s (.setScrap v)).pure = s.pure)
    ∧ (∀ rule : MetalRule,
        (Supply.step req rule s (.setScrap v)).fineOv = s.fineOv
        ∧ (Supply.step req rule s (.setScrap v)).alloyOv = s.alloyOv
        ∧ (Supply.step req rule s (.setScrap v)).pureOv = s.pureOv)
    ∧ (Supply.step req (.gold_pct pct) s (.setFine v)).fineOv = true
    ∧ (Supply.step req (.gold_pct pct) s (.setAlloy v)).alloyOv = true
    ∧ (Supply.step req (.gold_pct pct) s (.setPure v)).pureOv = true
    ∧ ((Supply.step req (.gold_pct pct) s .recalc).fineOv = false
       ∧ (Supply.step req (.gold_pct pct) s .recalc).alloyOv = false
       ∧ (Supply.step req (.gold_pct pct) s .recalc).pureOv = false
       ∧ (Supply.step req (.gold_pct pct) s .recalc).fine
           = (Supply.split_with_pct (max (req - s.scrap) 0) pct).1
       ∧ (Supply.step req (.gold_pct pct) s .recalc).alloy
           = (Supply.split_with_pct (max (req - s.scrap) 0) pct).2)
    ∧ ((Supply.step req .pure_only s .recalc).pureOv = false
       ∧ (Supply.step req .pure_only s .recalc).pure = round3 (max (req - s.scrap) 0)) := by
  refine ⟨?_, ?_, ?_, rfl, rfl, rfl, ?_, ?_⟩
  · rintro (h | h) <;> simp [Supply.step, Supply.auto_fill, h]
  · intro h
    simp [Supply.step, Supply.auto_fill, h]
  · intro rule
    cases rule <;>
      · simp only [Supply.step, Supply.auto_fill]
        split_ifs <;> simp
  · simp [Supply.step, Supply.auto_fill]
  · simp [Supply.step, Supply.auto_fill]

/-- C9 witness: with fine overridden (and alloy not), a scrap edit leaves
alloy untouched. -/
theorem C9_override_semantics_witness :
    (Supply.step 10 (.gold_pct (587/1000))
        ⟨2, 6, 413/100, 0, true, false, false⟩ (.setScrap 3)).alloy = 413/100 :=
  ((C9_override_semantics 10 (587/1000) 3
      ⟨2, 6, 413/100, 0, true, false, false⟩).1 (Or.inl rfl)).2
